import Mathlib

/-!
Verification of the qualifire-webhook guardrail service (src/qualifire-webhook/app.py).

The embedding models the module-level mutable globals (ASSERTIONS,
DEFAULT_RESPONSES, PROMPT_INJECTION_RESPONSE, GUARDRAILS_SOURCE) as an explicit
state record `GuardState`, the remote guardrail-config payload as a list of
`Guardrail` records (one per JSON entry, absent fields replaced by the same
defaults the Python `dict.get` calls supply), the evaluator response as
`EvaluationResult`, and the HTTP calls as an explicit outcome datatype
(timeout / other exception / a status code with a parsed body), since the
network itself is outside the program. Python string operations are mirrored:
`in` on strings is substring containment, `.lower()` is `strLower`, slicing
`[:30]` is `strTake`, `int` on a digit string is `strToNatOpt`, and dict
insertion keeps insertion order and overwrites in place. The string helpers
are written over character lists so that every definition evaluates inside
the kernel.
-/

namespace QualifireWebhook

set_option maxRecDepth 100000

/-- Substring test on character lists: `containsSub needle hay` is true when
`needle` occurs contiguously inside `hay` (Python `needle in hay`). -/
def containsSub (needle : List Char) : List Char → Bool
  | [] => needle.isEmpty
  | c :: t => needle.isPrefixOf (c :: t) || containsSub needle t

/-- Python `needle in hay` for strings. -/
def strContains (hay needle : String) : Bool :=
  containsSub needle.toList hay.toList

/-- Python `s.lower()` (ASCII case folding, as all compared text is ASCII). -/
def strLower (s : String) : String :=
  String.mk (s.toList.map Char.toLower)

/-- Python `s[:n]` character slicing. -/
def strTake (s : String) (n : Nat) : String :=
  String.mk (s.toList.take n)

/-- Python `int(s)` on a string of digit characters: `none` models the
ValueError raised on the empty string. -/
def strToNatOpt (s : String) : Option Nat :=
  if s.toList ≠ [] ∧ s.toList.all Char.isDigit then
    some (s.toList.foldl (fun a c => 10 * a + (c.toNat - 48)) 0)
  else none

/-- One entry of the guardrails-config payload, after JSON parsing. A missing
field carries the default the code reads with `.get`: name "" (missing name),
active false, default_response "" (missing `actions` or missing key),
request_evaluation / response_evaluation "" (missing `evaluations` or key). -/
structure Guardrail where
  name : String
  active : Bool
  default_response : String
  request_evaluation : String
  response_evaluation : String
deriving DecidableEq, Repr

/-- The module-level mutable globals of app.py. -/
structure GuardState where
  ASSERTIONS : List String
  DEFAULT_RESPONSES : List (String × String)
  PROMPT_INJECTION_RESPONSE : String
  GUARDRAILS_SOURCE : String
deriving DecidableEq, Repr

/-- The globals as initialised at module load, before `load_guardrails` runs. -/
def initState : GuardState :=
  { ASSERTIONS := []
    DEFAULT_RESPONSES := []
    PROMPT_INJECTION_RESPONSE := ""
    GUARDRAILS_SOURCE := "none" }

/-- Python-dict insertion: overwrite in place when the key exists, append
otherwise (CPython dicts preserve insertion order). -/
def dictInsert (d : List (String × String)) (k v : String) : List (String × String) :=
  if d.any (fun p => p.1 = k) then d.map (fun p => if p.1 = k then (k, v) else p)
  else d ++ [(k, v)]

/-- Python `d[k]` after an `k in d` guard, and `d.get`: first binding of `k`. -/
def dictFind (d : List (String × String)) (k : String) : Option String :=
  (d.find? (fun p => p.1 = k)).map (fun p => p.2)

/-- First hardcoded fallback assertion (financial/legal/tax). -/
def financialAssertion : String :=
  "The assistant must never provide personalized financial, legal, or tax advice including investment recommendations, stock/crypto/fund picks, portfolio allocation, legal strategy, contract interpretation, tax deductions, filing strategies, or audit responses."

/-- Second hardcoded fallback assertion (medical). -/
def medicalAssertion : String :=
  "The assistant must never provide medical diagnoses, treatment plans, medication advice, or therapy techniques including interpreting symptoms, recommending dosages, suggesting medications or supplements, providing CBT/DBT/EMDR exercises, or diagnosing mental health conditions."

/-- Hardcoded fallback prompt-injection response. -/
def promptInjectionFallback : String :=
  "Nice try! I\x27m your productivity buddy and my focus is helping you get things done. I can\x27t reveal my instructions or change how I work. What task can I help you tackle today?"

/-- Hardcoded fallback block message for the financial assertion. -/
def financialBlockMessage : String :=
  "I\x27m your productivity buddy, not a financial advisor, attorney, or tax professional! For investment decisions, legal questions, or tax strategies, please consult a licensed professional. What task can I help you organize today?"

/-- Hardcoded fallback block message for the medical assertion. -/
def medicalBlockMessage : String :=
  "I\x27m your productivity buddy, not a healthcare provider! For medical symptoms, medication questions, or mental health support, please consult a doctor, therapist, or psychiatrist. For emergencies, call 911 or 988. What task can I help you organize today?"

/-- `_use_fallbacks()`: reassigns all four globals wholesale. -/
def use_fallbacks : GuardState :=
  { ASSERTIONS := [financialAssertion, medicalAssertion]
    DEFAULT_RESPONSES :=
      [(financialAssertion, financialBlockMessage), (medicalAssertion, medicalBlockMessage)]
    PROMPT_INJECTION_RESPONSE := promptInjectionFallback
    GUARDRAILS_SOURCE := "fallback" }

/-- Module-level `FALLBACK_DEFAULT` generic message. -/
def FALLBACK_DEFAULT : String :=
  "I\x27m a productivity assistant and can only help with tasks related to productivity, time management, and organization. Let\x27s get back on track! How can I help you be more productive today?"

/-- Python `req_eval or resp_eval`: the first non-empty of the two. -/
def assertionText (g : Guardrail) : String :=
  if g.request_evaluation ≠ "" then g.request_evaluation else g.response_evaluation

/-- Body of the `for g in guardrails` loop of `load_guardrails`, acting on the
globals: skip inactive entries; a "prompt...injection" entry stores its
default_response as the prompt-injection response (when non-empty) and
contributes no assertion; any other entry appends its `assertionText` to
ASSERTIONS if non-empty, recording its default_response in DEFAULT_RESPONSES
when that is non-empty. -/
def processGuardrail (s : GuardState) (g : Guardrail) : GuardState :=
  if g.active = false then s
  else if strContains (strLower g.name) "prompt" = true ∧
      strContains (strLower g.name) "injection" = true then
    if g.default_response ≠ "" then { s with PROMPT_INJECTION_RESPONSE := g.default_response }
    else s
  else if assertionText g ≠ "" then
    if g.default_response ≠ "" then
      { s with
        ASSERTIONS := s.ASSERTIONS ++ [assertionText g]
        DEFAULT_RESPONSES := dictInsert s.DEFAULT_RESPONSES (assertionText g) g.default_response }
    else { s with ASSERTIONS := s.ASSERTIONS ++ [assertionText g] }
  else s

/-- Outcome of the GET to the guardrails-config endpoint: an exception
(transport failure or parse error), or a status code with the normalized
list of guardrail entries. -/
inductive LoadOutcome where
  | exn
  | http (code : Nat) (guardrails : List Guardrail)
deriving DecidableEq, Repr

/-- `load_guardrails()`: on exception or non-200 status use the hardcoded
fallbacks; otherwise run the extraction loop over the current globals (note:
ASSERTIONS is appended to, never cleared first); tag source "api" when
ASSERTIONS is non-empty afterwards, else use the fallbacks. -/
def load_guardrails (s : GuardState) (outcome : LoadOutcome) : GuardState :=
  match outcome with
  | .exn => use_fallbacks
  | .http code gs =>
    if code ≠ 200 then use_fallbacks
    else
      let s2 := gs.foldl processGuardrail s
      if s2.ASSERTIONS ≠ [] then { s2 with GUARDRAILS_SOURCE := "api" } else use_fallbacks

/-- One sub-result inside an `evaluationResults` entry; a missing label, name
or reason reads as "", a missing score as the passing default 100 (kept as an
Option to distinguish presence, with `.getD 100` at the use site). -/
structure SubResult where
  label : String
  score : Option Int
  name : String
  reason : String
deriving DecidableEq, Repr

/-- One entry of `evaluationResults`: a category `type` and its sub-results. -/
structure EvalEntry where
  type : String
  results : List SubResult
deriving DecidableEq, Repr

/-- Parsed evaluator response: top-level status (missing reads ""), optional
top-level score, nested evaluationResults. -/
structure EvaluationResult where
  status : String
  score : Option Int
  evaluationResults : List EvalEntry
deriving DecidableEq, Repr

/-- Verdict classifier condition of `guardrail_webhook`:
`status in ("fail", "failed") or (score is not None and score <= 50)`
with `status = result.get("status", "").lower()`. -/
def shouldBlock (r : EvaluationResult) : Bool :=
  ((strLower r.status) = "fail" || (strLower r.status) = "failed")
    || (match r.score with
        | some sc => decide (sc ≤ 50)
        | none => false)

/-- Failing-sub-result test in `_get_block_message`:
`label in ("fail", "unsafe", "detected", "true") or scoreVal < 50`
with the label lower-cased and a missing score defaulting to 100. -/
def isFailingSub (sub : SubResult) : Bool :=
  (let l := (strLower sub.label)
   l = "fail" || l = "unsafe" || l = "detected" || l = "true")
    || decide (sub.score.getD 100 < 50)

/-- Name-matching loop over DEFAULT_RESPONSES: return the response whose
assertion contains the (non-empty) sub-result name, or whose 30-character
assertion prefix occurs in the name, both lower-cased. -/
def nameMatchGo (name : String) : List (String × String) → Option (String × String)
  | [] => none
  | (assertion, response) :: rest =>
    if name ≠ "" ∧ strContains (strLower assertion) (strLower name) = true then
      some (response, "assertion_name_match")
    else if strContains (strLower name) (strLower (strTake assertion 30)) = true then
      some (response, "assertion_prefix_match")
    else nameMatchGo name rest

/-- Name-substring strategy of `_get_block_message`. -/
def nameMatch (st : GuardState) (name : String) : Option (String × String) :=
  nameMatchGo name st.DEFAULT_RESPONSES

/-- `"".join(filter(str.isdigit, name))`: every digit character of the name,
in order. -/
def digitsOf (s : String) : String :=
  String.mk (s.toList.filter Char.isDigit)

/-- Positional-index strategy: parse all digits of the name as a number n,
take idx = n - 1; when 0 <= idx < len(ASSERTIONS) and the assertion at idx is
a DEFAULT_RESPONSES key, return its response. `int("")` raises ValueError,
which the code catches and ignores; n = 0 gives idx = -1, rejected by the
`0 <= idx` bound. -/
def indexMatch (st : GuardState) (name : String) : Option (String × String) :=
  match strToNatOpt (digitsOf name) with
  | none => none
  | some n =>
    if n = 0 then none
    else
      match st.ASSERTIONS.get? (n - 1) with
      | some a =>
        match dictFind st.DEFAULT_RESPONSES a with
        | some r => some (r, "assertion_index_" ++ toString (n - 1))
        | none => none
      | none => none

/-- Financial keyword list hardcoded in the reason-keyword loop. -/
def financialKeywords : List String := ["financial", "invest", "legal", "tax"]

/-- Medical keyword list hardcoded in the reason-keyword loop. -/
def medicalKeywords : List String := ["medical", "diagnos", "medication", "therapy"]

/-- Keyword loop over DEFAULT_RESPONSES: for each (assertion, response) pair,
fire the financial branch when the lower-cased reason contains a financial
keyword and the assertion contains "financial" or "legal"; then the medical
branch when the reason contains a medical keyword and the assertion contains
"medical" or "diagnos". -/
def keywordMatchGo (reason : String) : List (String × String) → Option (String × String)
  | [] => none
  | (assertion, response) :: rest =>
    if financialKeywords.any (fun kw => strContains reason kw) = true ∧
        (strContains (strLower assertion) "financial" = true ∨
         strContains (strLower assertion) "legal" = true) then
      some (response, "keyword_financial")
    else if medicalKeywords.any (fun kw => strContains reason kw) = true ∧
        (strContains (strLower assertion) "medical" = true ∨
         strContains (strLower assertion) "diagnos" = true) then
      some (response, "keyword_medical")
    else keywordMatchGo reason rest

/-- Reason-keyword strategy; `reason` is already lower-cased by the caller. -/
def keywordMatch (st : GuardState) (reason : String) : Option (String × String) :=
  keywordMatchGo reason st.DEFAULT_RESPONSES

/-- The three policy strategies in code order: name match, then index match,
then keyword match on the lower-cased reason. -/
def policyStrategies (st : GuardState) (sub : SubResult) : Option (String × String) :=
  match nameMatch st sub.name with
  | some r => some r
  | none =>
    match indexMatch st sub.name with
    | some r => some r
    | none => keywordMatch st (strLower sub.reason)

/-- Resolution of one failing sub-result inside `_get_block_message`: the
prompt-injection check (on the lower-cased entry type or sub-result name)
returns the configured injection response when one is set, otherwise falls
through; the policy strategies run only when the lower-cased entry type
contains "assertion" or "policy"; `none` means the scan continues. -/
def resolveFailingSub (st : GuardState) (rtype : String) (sub : SubResult) :
    Option (String × String) :=
  if (strContains rtype "injection" = true ∨ strContains (strLower sub.name) "injection" = true)
      ∧ st.PROMPT_INJECTION_RESPONSE ≠ "" then
    some (st.PROMPT_INJECTION_RESPONSE, "prompt_injection")
  else if strContains rtype "assertion" = true ∨ strContains rtype "policy" = true then
    policyStrategies st sub
  else none

/-- Inner loop of `_get_block_message` over one entry's sub-results. -/
def scanSubs (st : GuardState) (rtype : String) : List SubResult → Option (String × String)
  | [] => none
  | sub :: rest =>
    if isFailingSub sub = true then
      match resolveFailingSub st rtype sub with
      | some r => some r
      | none => scanSubs st rtype rest
    else scanSubs st rtype rest

/-- Outer loop of `_get_block_message` over `evaluationResults`. -/
def scanEntries (st : GuardState) : List EvalEntry → Option (String × String)
  | [] => none
  | e :: rest =>
    match scanSubs st (strLower e.type) e.results with
    | some r => some r
    | none => scanEntries st rest

/-- `_get_block_message(data)`: scan all entries; when nothing returned,
fall back to `(FALLBACK_DEFAULT, "generic_fallback")`. -/
def get_block_message (st : GuardState) (data : EvaluationResult) : String × String :=
  (scanEntries st data.evaluationResults).getD (FALLBACK_DEFAULT, "generic_fallback")

/-- One conversation turn; a missing role or content reads as "". -/
structure Msg where
  role : String
  content : String
deriving DecidableEq, Repr

/-- Message extraction in `guardrail_webhook`: walk the messages in reverse
for the first user turn; when the resulting string is empty (no user turn, or
a user turn with empty content) take the last message content. -/
def extractMessage (messages : List Msg) : String :=
  let lastMsg :=
    match messages.reverse.find? (fun m => m.role = "user") with
    | some m => m.content
    | none => ""
  if lastMsg = "" then
    match messages.getLast? with
    | some m => m.content
    | none => ""
  else lastMsg

/-- The last user-role turn of a conversation (used to state claims about
`extractMessage`). -/
def lastUserTurn (messages : List Msg) : Option Msg :=
  messages.reverse.find? (fun m => m.role = "user")

/-- Outcome of the POST to the evaluator: a timeout (`requests.exceptions.Timeout`),
any other exception, or a status code with a parsed body. -/
inductive EvalOutcome where
  | timeout
  | exn
  | http (code : Nat) (body : EvaluationResult)
deriving DecidableEq, Repr

/-- Webhook response body: `{verdict: true}` or
`{verdict: false, data: {action: "block", revised_response: msg}}`. -/
inductive WebhookResponse where
  | allow
  | block (revised_response : String)
deriving DecidableEq, Repr

/-- `guardrail_webhook()` as a function of the globals, the configured secret
("" when unset, matching Python falsiness), the Authorization header, the
extracted message list, and the evaluator-call outcome. The second component
records whether the evaluator POST was issued. Auth mismatch and the empty
conversation answer allow before any evaluator contact; timeout, any other
exception, and a non-200 status answer allow; a 200 body goes through the
verdict classifier and, on block, `_get_block_message`. -/
def guardrail_webhook (st : GuardState) (secret auth : String)
    (messages : List Msg) (outcome : EvalOutcome) : WebhookResponse × Bool :=
  if secret ≠ "" ∧ "Bearer " ++ secret ≠ auth then (.allow, false)
  else if messages = [] then (.allow, false)
  else
    match outcome with
    | .timeout => (.allow, true)
    | .exn => (.allow, true)
    | .http code body =>
      if code ≠ 200 then (.allow, true)
      else if shouldBlock body = true then (.block (get_block_message st body).1, true)
      else (.allow, true)

/-! Concrete inputs used by the scenario theorems. -/

/-- A guardrail entry with one valid assertion and response. -/
def gOne : Guardrail :=
  { name := "finance", active := true, default_response := "r",
    request_evaluation := "a", response_evaluation := "" }

/-- An active non-injection policy entry with assertion and response. -/
def gPol : Guardrail :=
  { name := "custom policy", active := true, default_response := "resp",
    request_evaluation := "assert text", response_evaluation := "" }

/-- An active prompt-injection entry with no default_response. -/
def gInjNoResp : Guardrail :=
  { name := "Prompt Injection", active := true, default_response := "",
    request_evaluation := "", response_evaluation := "" }

/-- Failing sub-result whose name contains "policy" and reason contains
"diagnos", inside an entry whose type is neither injection nor policy-like. -/
def subC5 : SubResult :=
  { label := "fail", score := none, name := "policy check", reason := "diagnosis needed" }

/-- Entry of type "custom" holding subC5. -/
def entryC5 : EvalEntry := { type := "custom", results := [subC5] }

/-- Blocking evaluator result around entryC5. -/
def dataC5 : EvaluationResult :=
  { status := "fail", score := none, evaluationResults := [entryC5] }

/-- Failing policy-type sub-result that no strategy matches. -/
def subC6 : SubResult :=
  { label := "fail", score := none, name := "xyz", reason := "blah" }

/-- Entry of type "policy" holding subC6. -/
def entryC6 : EvalEntry := { type := "policy", results := [subC6] }

/-- Blocking evaluator result around entryC6. -/
def dataC6 : EvaluationResult :=
  { status := "fail", score := none, evaluationResults := [entryC6] }

/-- Failing policy-type sub-result whose reason mentions a stock but hits
none of the hardcoded keyword lists. -/
def subC7 : SubResult :=
  { label := "fail", score := none, name := "", reason := "Recommend a stock to buy" }

/-- Entry of type "policy_assertion" holding subC7. -/
def entryC7 : EvalEntry := { type := "policy_assertion", results := [subC7] }

/-- Blocking evaluator result around entryC7. -/
def dataC7 : EvaluationResult :=
  { status := "fail", score := none, evaluationResults := [entryC7] }

/-! Helper lemmas shared across the claims. -/

/-- One loop iteration never changes the stored prompt-injection response
unless the entry is an active prompt-injection entry with a non-empty
default_response. -/
lemma processGuardrail_keeps_injection_message (s : GuardState) (g : Guardrail)
    (h : ¬(g.active = true ∧
      (strContains (strLower g.name) "prompt" = true ∧ strContains (strLower g.name) "injection" = true) ∧
      g.default_response ≠ "")) :
    (processGuardrail s g).PROMPT_INJECTION_RESPONSE = s.PROMPT_INJECTION_RESPONSE := by
  unfold processGuardrail
  split_ifs with ha hpi hdr hat hdr2 <;> try rfl
  simp only [Bool.not_eq_false] at ha
  exact absurd ⟨ha, hpi, hdr⟩ h

/-- The whole extraction loop preserves the prompt-injection response when no
entry is an active prompt-injection entry with a usable default_response. -/
lemma foldl_keeps_injection_message (gs : List Guardrail) (s : GuardState)
    (h : ∀ g ∈ gs, ¬(g.active = true ∧
      (strContains (strLower g.name) "prompt" = true ∧ strContains (strLower g.name) "injection" = true) ∧
      g.default_response ≠ "")) :
    (gs.foldl processGuardrail s).PROMPT_INJECTION_RESPONSE = s.PROMPT_INJECTION_RESPONSE := by
  induction gs generalizing s with
  | nil => rfl
  | cons g rest ih =>
    rw [List.foldl_cons, ih _ (fun x hx => h x (List.mem_cons_of_mem _ hx)),
      processGuardrail_keeps_injection_message s g (h g (List.mem_cons_self _ _))]

/-! Claim theorems. -/

/-- Claim C1: the verdict classifier blocks exactly when the lower-cased
top-level status is "fail" or "failed", or the top-level score is present and
at most 50; so status "failed" blocks regardless of score, and a status
outside the failing set with an absent or above-50 score allows. -/
theorem C1_verdict_classifier (r : EvaluationResult) :
    shouldBlock r = true ↔
      ((strLower r.status) = "fail" ∨ (strLower r.status) = "failed" ∨
        ∃ sc, r.score = some sc ∧ sc ≤ 50) := by
  unfold shouldBlock
  cases h : r.score
  · simp [h]
  · simp [h]
    tauto

/-- Claim C2: whenever the evaluator call times out, raises any other
exception, or answers with a non-200 status, the webhook responds with the
allow verdict, never an error. -/
theorem C2_evaluator_fail_open (st : GuardState) (secret auth : String)
    (messages : List Msg) (outcome : EvalOutcome)
    (h : outcome = .timeout ∨ outcome = .exn ∨
      ∃ code body, outcome = .http code body ∧ code ≠ 200) :
    (guardrail_webhook st secret auth messages outcome).1 = .allow := by
  rcases h with h | h | ⟨code, body, h, hc⟩
  all_goals subst h
  all_goals simp only [guardrail_webhook]
  all_goals split_ifs
  all_goals simp_all

/-- Witness for C2 at a concrete timeout outcome. -/
theorem C2_evaluator_fail_open_witness :
    (guardrail_webhook use_fallbacks "" "" [{ role := "user", content := "hi" }] .timeout).1
      = .allow :=
  C2_evaluator_fail_open use_fallbacks "" "" [{ role := "user", content := "hi" }] .timeout
    (Or.inl rfl)

/-- Claim C3 (code bug): `load_guardrails` appends to ASSERTIONS without
clearing it, so a second load of the identical remote payload does not
reproduce the first table: the assertion list is doubled. -/
theorem C3_reload_duplicates_assertions :
    (load_guardrails initState (.http 200 [gOne])).ASSERTIONS = ["a"] ∧
    (load_guardrails (load_guardrails initState (.http 200 [gOne]))
        (.http 200 [gOne])).ASSERTIONS = ["a", "a"] ∧
    load_guardrails (load_guardrails initState (.http 200 [gOne])) (.http 200 [gOne]) ≠
      load_guardrails initState (.http 200 [gOne]) := by decide

/-- Counterexample to C4 as stated: in a conversation whose last (and only)
user turn has empty content, the extractor returns the following assistant
turn's content "hi", not the user turn's content "". -/
theorem C4_counterexample :
    lastUserTurn [{ role := "user", content := "" }, { role := "assistant", content := "hi" }]
        = some { role := "user", content := "" } ∧
    extractMessage [{ role := "user", content := "" }, { role := "assistant", content := "hi" }]
        = "hi" ∧
    ("hi" : String) ≠ "" := by decide

/-- Claim C4 as amended: the extractor returns the last user turn's content
when that content is non-empty; with no user turn, or a last user turn with
empty content, it returns the last turn's content; an empty conversation
makes the webhook allow. -/
theorem C4_amended_extractor (messages : List Msg) :
    (∀ m, lastUserTurn messages = some m → m.content ≠ "" →
        extractMessage messages = m.content)
  ∧ (lastUserTurn messages = none → ∀ l, messages.getLast? = some l →
        extractMessage messages = l.content)
  ∧ (∀ m, lastUserTurn messages = some m → m.content = "" →
        ∀ l, messages.getLast? = some l → extractMessage messages = l.content)
  ∧ (∀ st secret auth outcome, (guardrail_webhook st secret auth [] outcome).1 = .allow) := by
  unfold lastUserTurn
  refine ⟨?_, ?_, ?_, ?_⟩
  · intro m hm hne
    unfold extractMessage
    rw [hm]
    simp [hne]
  · intro hm l hl
    unfold extractMessage
    rw [hm, hl]
    simp
  · intro m hm hme l hl
    unfold extractMessage
    rw [hm, hl]
    simp [hme]
  · intro st secret auth outcome
    unfold guardrail_webhook
    split_ifs with h1 h2
    · rfl
    · rfl
    · exact absurd rfl h2

/-- Witness for C4 instantiating every case of the amended statement. -/
theorem C4_amended_extractor_witness :
    extractMessage [{ role := "user", content := "hi" }] = "hi" ∧
    extractMessage [{ role := "assistant", content := "yo" }] = "yo" ∧
    extractMessage [{ role := "user", content := "" }, { role := "assistant", content := "hi" }]
        = "hi" ∧
    (guardrail_webhook use_fallbacks "s" "t" [] .timeout).1 = .allow :=
  ⟨(C4_amended_extractor [{ role := "user", content := "hi" }]).1
      { role := "user", content := "hi" } (by decide) (by decide),
   (C4_amended_extractor [{ role := "assistant", content := "yo" }]).2.1 (by decide)
      { role := "assistant", content := "yo" } (by decide),
   (C4_amended_extractor
        [{ role := "user", content := "" }, { role := "assistant", content := "hi" }]).2.2.1
      { role := "user", content := "" } (by decide) (by decide)
      { role := "assistant", content := "hi" } (by decide),
   (C4_amended_extractor []).2.2.2 use_fallbacks "s" "t" .timeout⟩

/-- Counterexample to C5 as stated: subC5's name contains "policy" and its
reason contains "diagnos", so by the claim the keyword strategy should give
the medical message, yet the resolver answers the generic fallback (the gate
looks only at the entry type, "custom" here). -/
theorem C5_counterexample :
    strContains (strLower subC5.name) "policy" = true ∧
    strContains (strLower subC5.reason) "diagnos" = true ∧
    (get_block_message use_fallbacks dataC5).1 = FALLBACK_DEFAULT ∧
    FALLBACK_DEFAULT ≠ medicalBlockMessage := by decide

/-- Claim C5 as amended: the policy gate tests only the enclosing entry's
lower-cased type for "assertion"/"policy" (the sub-result name is consulted
only by the injection check); a failing sub-result passing neither the
injection check nor the type gate is skipped, and the diagnos scenario
resolves to the generic fallback. -/
theorem C5_amended_gate (st : GuardState) (rtype : String) (sub : SubResult)
    (hinj : ¬((strContains rtype "injection" = true ∨
        strContains (strLower sub.name) "injection" = true) ∧
      st.PROMPT_INJECTION_RESPONSE ≠ "")) :
    (strContains rtype "assertion" = false ∧ strContains rtype "policy" = false →
        resolveFailingSub st rtype sub = none)
  ∧ ((strContains rtype "assertion" = true ∨ strContains rtype "policy" = true) →
        resolveFailingSub st rtype sub = policyStrategies st sub)
  ∧ get_block_message use_fallbacks dataC5 = (FALLBACK_DEFAULT, "generic_fallback") := by
  refine ⟨?_, ?_, by decide⟩
  · intro hg
    unfold resolveFailingSub
    rw [if_neg hinj, if_neg]
    simp [hg.1, hg.2]
  · intro hg
    unfold resolveFailingSub
    rw [if_neg hinj, if_pos hg]

/-- Witness for C5 at concrete entry types and sub-results. -/
theorem C5_amended_gate_witness :
    resolveFailingSub use_fallbacks "custom" subC5 = none ∧
    resolveFailingSub use_fallbacks "policy_assertion" subC7 =
      policyStrategies use_fallbacks subC7 :=
  ⟨(C5_amended_gate use_fallbacks "custom" subC5 (by decide)).1 (by decide),
   (C5_amended_gate use_fallbacks "policy_assertion" subC7 (by decide)).2.1
      (Or.inl (by decide))⟩

/-- Counterexample to C6 as stated: dataC6 carries a failing policy-type
sub-result matched by no strategy; the first configured policy's block
message is the financial one, yet the resolver answers the generic fallback
message, which differs from it. -/
theorem C6_counterexample :
    (get_block_message use_fallbacks dataC6).1 = FALLBACK_DEFAULT ∧
    (use_fallbacks.DEFAULT_RESPONSES.head?.map (fun p => p.2)) = some financialBlockMessage ∧
    FALLBACK_DEFAULT ≠ financialBlockMessage := by decide

/-- Claim C6 as amended: a failing policy-type sub-result matched by no
strategy contributes nothing (the scan continues), and when the whole scan
finds no match the resolver returns the generic FALLBACK_DEFAULT, not the
first configured policy's block message. -/
theorem C6_amended_generic (st : GuardState) (rtype : String) (sub : SubResult)
    (data : EvaluationResult)
    (hinj : ¬((strContains rtype "injection" = true ∨
        strContains (strLower sub.name) "injection" = true) ∧
      st.PROMPT_INJECTION_RESPONSE ≠ ""))
    (hgate : strContains rtype "assertion" = true ∨ strContains rtype "policy" = true)
    (hstrat : policyStrategies st sub = none)
    (hscan : scanEntries st data.evaluationResults = none) :
    resolveFailingSub st rtype sub = none ∧
    get_block_message st data = (FALLBACK_DEFAULT, "generic_fallback") := by
  constructor
  · unfold resolveFailingSub
    rw [if_neg hinj, if_pos hgate]
    exact hstrat
  · unfold get_block_message
    rw [hscan]
    rfl

/-- Witness for C6 at the dataC6 scenario. -/
theorem C6_amended_generic_witness :
    resolveFailingSub use_fallbacks "policy" subC6 = none ∧
    get_block_message use_fallbacks dataC6 = (FALLBACK_DEFAULT, "generic_fallback") :=
  C6_amended_generic use_fallbacks "policy" subC6 dataC6 (by decide) (Or.inr (by decide))
    (by decide) (by decide)

/-- Counterexample to C7 as stated: subC7's reason contains "stock", a member
of the claimed financial keyword set, yet the resolver answers the generic
fallback, not the financial block message — the code's keyword lists hold
only "financial"/"invest"/"legal"/"tax" and "medical"/"diagnos"/"medication"/
"therapy". -/
theorem C7_counterexample :
    strContains (strLower subC7.reason) "stock" = true ∧
    (get_block_message use_fallbacks dataC7).1 = FALLBACK_DEFAULT ∧
    FALLBACK_DEFAULT ≠ financialBlockMessage := by decide

/-- Claim C7 as amended: with the built-in table, a lower-cased reason
containing one of "financial"/"invest"/"legal"/"tax" makes the keyword
strategy return the financial block message, and a reason hitting none of
those but containing one of "medical"/"diagnos"/"medication"/"therapy" makes
it return the medical block message. -/
theorem C7_amended_keywords (reason : String) :
    (financialKeywords.any (fun kw => strContains reason kw) = true →
        keywordMatch use_fallbacks reason = some (financialBlockMessage, "keyword_financial"))
  ∧ (financialKeywords.any (fun kw => strContains reason kw) = false →
      medicalKeywords.any (fun kw => strContains reason kw) = true →
        keywordMatch use_fallbacks reason = some (medicalBlockMessage, "keyword_medical")) := by
  have hf1 : strContains (strLower financialAssertion) "financial" = true := by decide
  have hm1 : strContains (strLower financialAssertion) "medical" = false := by decide
  have hm2 : strContains (strLower financialAssertion) "diagnos" = false := by decide
  have hm3 : strContains (strLower medicalAssertion) "medical" = true := by decide
  constructor
  · intro hf
    simp [keywordMatch, use_fallbacks, keywordMatchGo, hf, hf1]
  · intro hf hm
    simp [keywordMatch, use_fallbacks, keywordMatchGo, hf, hm, hm1, hm2, hm3]

/-- Witness for C7 at concrete reasons hitting each keyword list. -/
theorem C7_amended_keywords_witness :
    keywordMatch use_fallbacks "investment advice"
        = some (financialBlockMessage, "keyword_financial") ∧
    keywordMatch use_fallbacks "diagnosis request"
        = some (medicalBlockMessage, "keyword_medical") :=
  ⟨(C7_amended_keywords "investment advice").1 (by decide),
   (C7_amended_keywords "diagnosis request").2 (by decide) (by decide)⟩

/-- Claim C8: with a configured (non-empty) shared secret and an
Authorization header different from "Bearer secret", the webhook answers the
allow verdict without issuing the evaluator call. -/
theorem C8_auth_fail_open (st : GuardState) (secret auth : String)
    (messages : List Msg) (outcome : EvalOutcome)
    (hsec : secret ≠ "") (hauth : "Bearer " ++ secret ≠ auth) :
    guardrail_webhook st secret auth messages outcome = (.allow, false) := by
  unfold guardrail_webhook
  rw [if_pos ⟨hsec, hauth⟩]

/-- Witness for C8 at a concrete mismatched credential. -/
theorem C8_auth_fail_open_witness :
    guardrail_webhook use_fallbacks "s3cret" "Bearer wrong"
        [{ role := "user", content := "hi" }] .timeout = (.allow, false) :=
  C8_auth_fail_open use_fallbacks "s3cret" "Bearer wrong"
    [{ role := "user", content := "hi" }] .timeout (by decide) (by decide)

/-- Claim C9: the index strategy concatenates every digit of the name (e.g.
"a1b2" yields "12"), reads the result as a one-based index — digits reading 1
resolve to the first assertion's response — and digits reading 0 never match,
falling through to the keyword strategy. -/
theorem C9_positional_index (st : GuardState) (name a r : String)
    (h1 : strToNatOpt (digitsOf name) = some 1)
    (h2 : st.ASSERTIONS[0]? = some a)
    (h3 : dictFind st.DEFAULT_RESPONSES a = some r) :
    digitsOf "a1b2" = "12"
  ∧ indexMatch st name = some (r, "assertion_index_0")
  ∧ (∀ st2 nm, strToNatOpt (digitsOf nm) = some 0 → indexMatch st2 nm = none)
  ∧ (∀ rtype sub, strToNatOpt (digitsOf (SubResult.name sub)) = some 0 →
      nameMatch st (SubResult.name sub) = none →
      ¬((strContains rtype "injection" = true ∨
          strContains (strLower (SubResult.name sub)) "injection" = true) ∧
        st.PROMPT_INJECTION_RESPONSE ≠ "") →
      (strContains rtype "assertion" = true ∨ strContains rtype "policy" = true) →
      resolveFailingSub st rtype sub = keywordMatch st (strLower (SubResult.reason sub))) := by
  have hzero : ∀ (st2 : GuardState) (nm : String),
      strToNatOpt (digitsOf nm) = some 0 → indexMatch st2 nm = none := by
    intro st2 nm hz
    unfold indexMatch
    rw [hz]
    simp
  refine ⟨by decide, ?_, hzero, ?_⟩
  · unfold indexMatch
    rw [h1]
    simp [h2, h3]
    decide
  · intro rtype sub hz hname hinj hgate
    unfold resolveFailingSub
    rw [if_neg hinj, if_pos hgate]
    unfold policyStrategies
    rw [hname, hzero st (SubResult.name sub) hz]

/-- Witness for C9 on the built-in table with names "assertion_1", "a0". -/
theorem C9_positional_index_witness :
    indexMatch use_fallbacks "assertion_1"
        = some (financialBlockMessage, "assertion_index_0") ∧
    indexMatch use_fallbacks "a0" = none ∧
    resolveFailingSub use_fallbacks "policy"
        { label := "fail", score := none, name := "a0", reason := "tax tips" }
      = keywordMatch use_fallbacks "tax tips" :=
  ⟨(C9_positional_index use_fallbacks "assertion_1" financialAssertion financialBlockMessage
      (by decide) (by decide) (by decide)).2.1,
   (C9_positional_index use_fallbacks "assertion_1" financialAssertion financialBlockMessage
      (by decide) (by decide) (by decide)).2.2.1 use_fallbacks "a0" (by decide),
   (C9_positional_index use_fallbacks "assertion_1" financialAssertion financialBlockMessage
      (by decide) (by decide) (by decide)).2.2.2 "policy"
      { label := "fail", score := none, name := "a0", reason := "tax tips" }
      (by decide) (by decide) (by decide) (Or.inr (by decide))⟩

/-- Claim C10: a load never clears the stored prompt-injection response: when
no payload entry is an active prompt-injection entry with a usable block
message, a successful remote load keeps the previous response unchanged and
tags the table source "api". -/
theorem C10_injection_message_retained (s : GuardState) (gs : List Guardrail)
    (h : ∀ g ∈ gs, ¬(g.active = true ∧
      (strContains (strLower g.name) "prompt" = true ∧ strContains (strLower g.name) "injection" = true) ∧
      g.default_response ≠ ""))
    (hsucc : (gs.foldl processGuardrail s).ASSERTIONS ≠ []) :
    (load_guardrails s (.http 200 gs)).PROMPT_INJECTION_RESPONSE
        = s.PROMPT_INJECTION_RESPONSE ∧
    (load_guardrails s (.http 200 gs)).GUARDRAILS_SOURCE = "api" := by
  have key : load_guardrails s (.http 200 gs) =
      (if (gs.foldl processGuardrail s).ASSERTIONS ≠ [] then
        { gs.foldl processGuardrail s with GUARDRAILS_SOURCE := "api" }
      else use_fallbacks) := rfl
  rw [key, if_pos hsucc]
  exact ⟨foldl_keeps_injection_message gs s h, rfl⟩

/-- Witness for C10: reloading over the fallback table with a payload holding
one policy entry and one responseless injection entry keeps the fallback
injection message and tags source "api". -/
theorem C10_injection_message_retained_witness :
    (load_guardrails use_fallbacks (.http 200 [gPol, gInjNoResp])).PROMPT_INJECTION_RESPONSE
        = use_fallbacks.PROMPT_INJECTION_RESPONSE ∧
    (load_guardrails use_fallbacks (.http 200 [gPol, gInjNoResp])).GUARDRAILS_SOURCE = "api" :=
  C10_injection_message_retained use_fallbacks [gPol, gInjNoResp] (by decide) (by decide)

end QualifireWebhook
